import Mathlib

/-!
Shallow embedding of cmd/sui-catchup/main.go.

The program polls a Prometheus metrics endpoint, tracks the two gauge
families "highest_known_checkpoint" and "highest_synced_checkpoint" in
shared state, renders a progress line, and exits once the known value is
non-zero and known - synced <= 0.

Go float64 gauge values are modelled as rationals; Go int64 conversion
and division (both truncating toward zero) are modelled explicitly.
External library behaviour (the expfmt text parser) is taken as an
abstract input: either a parse error or a map from family name to the
decoded MetricFamily, exactly what parser.TextToMetricFamilies returns.
-/

namespace SuiCatchup

/-- One metric of a family; dto.Metric restricted to the gauge field.
A nil gauge pointer is None; GetGauge().GetValue() on nil yields 0. -/
structure Metric where
  gauge : Option ℚ
  deriving DecidableEq

/-- GetGauge().GetValue(): nil-safe proto getter, 0 for a nil gauge. -/
def Metric.getGaugeValue (m : Metric) : ℚ := m.gauge.getD 0

/-- dto.MetricFamily restricted to the fields main.go reads:
the family name and the list of metrics. -/
structure MetricFamily where
  name : String
  metric : List Metric
  deriving DecidableEq

/-- f.GetName() on a possibly-nil *dto.MetricFamily: "" for nil. -/
def familyGetName : Option MetricFamily → String
  | none => ""
  | some f => f.name

/-- The three shared atomic.Float64 globals of main.go. -/
structure ConvergenceState where
  highest_known_checkpoint : ℚ
  highest_synced_checkpoint : ℚ
  last_delta : ℚ
  deriving DecidableEq

/-- The zero-initialised state at process start. -/
def initialState : ConvergenceState := ⟨0, 0, 0⟩

/-- Go int64 division truncates toward zero, as does Int.tdiv. -/
def goDiv (a b : Int) : Int := Int.tdiv a b

/-- Go conversion int64(x) of a float64, truncation toward zero,
modelled on rationals. -/
def ratTrunc (q : ℚ) : Int := Int.tdiv q.num (Int.ofNat q.den)

/-- The name-switch of monitorChannel: store the first metric of the
family into the matching global. Returns none when the Go code would
panic (indexing GetMetric()[0] on an empty list). A nil family has
GetName() == "" and matches neither case. -/
def firstMetric : Option MetricFamily → Option Metric
  | none => none
  | some fam => fam.metric.head?

def storePhase (s : ConvergenceState) (f : Option MetricFamily) :
    Option ConvergenceState :=
  if familyGetName f = "highest_known_checkpoint" then
    match firstMetric f with
    | none => none
    | some m => some { s with highest_known_checkpoint := m.getGaugeValue }
  else if familyGetName f = "highest_synced_checkpoint" then
    match firstMetric f with
    | none => none
    | some m => some { s with highest_synced_checkpoint := m.getGaugeValue }
  else
    some s

/-- The rate fragment of the status line: fmt.Sprintf with
-int64(rate)/int64(*update_interval) resp. int64(rate)/int64(interval). -/
def rateString (rate : ℚ) (update_interval : Int) : String :=
  if rate < 0 then
    "catching up at " ++ toString (goDiv (-(ratTrunc rate)) update_interval) ++ "/s"
  else
    "falling behind at " ++ toString (goDiv (ratTrunc rate) update_interval) ++ "/s"

/-- The full status line printed by monitorChannel. -/
def statusLine (delta rate : ℚ) (update_interval : Int) : String :=
  "Catching up, " ++ toString (ratTrunc delta) ++ " checkpoints behind (" ++
    rateString rate update_interval ++ ")"

/-- The gap/rate/render block of monitorChannel: only when both globals
are non-zero, compute delta and rate, store last_delta, and emit a line. -/
def renderPhase (update_interval : Int) (s : ConvergenceState) :
    ConvergenceState × Option String :=
  if s.highest_known_checkpoint ≠ 0 ∧ s.highest_synced_checkpoint ≠ 0 then
    let delta := s.highest_known_checkpoint - s.highest_synced_checkpoint
    let rate := delta - s.last_delta
    ({ s with last_delta := delta }, some (statusLine delta rate update_interval))
  else
    (s, none)

/-- One iteration of monitorChannel: receive a (possibly nil) family,
store it, then maybe render. none models a Go panic. -/
def monitorStep (update_interval : Int) (s : ConvergenceState)
    (f : Option MetricFamily) : Option (ConvergenceState × Option String) :=
  match storePhase s f with
  | none => none
  | some s1 => some (renderPhase update_interval s1)

/-- Drain a list of channel items through monitorChannel, collecting the
status lines printed along the way. -/
def processSamples (update_interval : Int) (s : ConvergenceState) :
    List (Option MetricFamily) → Option (ConvergenceState × List String)
  | [] => some (s, [])
  | f :: rest =>
    match monitorStep update_interval s f with
    | none => none
    | some (s1, line) =>
      match processSamples update_interval s1 rest with
      | none => none
      | some (s2, lines) => some (s2, line.toList ++ lines)

/-- The parsed-map lookup metricFamilies[name]; a Go map read of a
missing key yields the zero value, here the nil pointer none. -/
def mapLookup (m : List (String × MetricFamily)) (k : String) :
    Option MetricFamily :=
  (m.find? fun p => p.1 = k).map Prod.snd

/-- What parser.TextToMetricFamilies handed back: error or name map. -/
abbrev ParserResult := Except String (List (String × MetricFamily))

/-- parseReader: on parser error wrap it and send nothing; on success
send the two fixed-name lookups, known first, synced second (a missing
family is sent as the nil pointer). The returned list is the sequence of
channel sends. -/
def parseReader (parsed : ParserResult) :
    Except String (List (Option MetricFamily)) :=
  match parsed with
  | .error e => .error ("reading text format failed: " ++ e)
  | .ok m => .ok [mapLookup m "highest_known_checkpoint",
                  mapLookup m "highest_synced_checkpoint"]

/-- The items that actually reach the channel: none on the error path. -/
def publishOf : Except String (List (Option MetricFamily)) →
    List (Option MetricFamily)
  | .error _ => []
  | .ok l => l

/-- The spec's Samples among the channel sends: the non-nil families. -/
def samplesOf (sends : List (Option MetricFamily)) : List MetricFamily :=
  sends.filterMap id

/-- The value a Sample carries once consumed: the first metric's gauge
reading, as monitorChannel extracts it. -/
def sampleValue (f : MetricFamily) : ℚ :=
  ((f.metric.head?).map Metric.getGaugeValue).getD 0

/-! ## Flag handling and startup -/

/-- Default of the -addr flag as declared in main.go. -/
def validator_addr_default : String := "http://localhost:9187/metrics"

/-- flag.Parse resolution of -addr: the supplied value, or the default
when the flag is absent from the command line. -/
def resolveAddr : Option String → String
  | none => validator_addr_default
  | some a => a

/-- The only fatal startup check of main: log.Fatal when the resolved
address is the empty string. -/
def startupFatal (addr : String) : Bool := addr = ""

/-! ## Convergence Controller (the main loop) -/

/-- One iteration of the main loop, seen from the controller: either
fetchMetricFamilies returned an error, or it succeeded and the controller
reads the two checkpoint globals for its convergence check. -/
inductive PollOutcome where
  | failure (err : String)
  | success (known synced : ℚ)
  deriving DecidableEq

/-- The escalating error indicator: one "." appended per unit of the
errors counter. -/
def errIndicator (n : Nat) : String := String.mk (List.replicate n '.')

/-- The error line printed on a failed poll, with the counter at n. -/
def errorLine (err : String) (n : Nat) : String :=
  "Error fetching metrics: " ++ err ++ " " ++ errIndicator n

/-- The nested convergence check of the success branch: break out of the
loop iff highest_known_checkpoint != 0 and known - synced <= 0. -/
def ctrlBreakOnSuccess (known synced : ℚ) : Bool :=
  if known ≠ 0 then
    if known - synced ≤ 0 then true else false
  else false

/-- Run the main loop over a finite trace of poll outcomes, starting
from failure counter errors. Returns the final counter, the lines the
controller printed (error lines, plus the final caught-up message on
the break path), and whether the loop exited via the convergence break.
An exhausted trace models the never-terminating wait for more polls. -/
def mainLoop (errors : Nat) : List PollOutcome → Nat × List String × Bool
  | [] => (errors, [], false)
  | .failure e :: rest =>
    let r := mainLoop (errors + 1) rest
    (r.1, errorLine e (errors + 1) :: r.2.1, r.2.2)
  | .success k s :: rest =>
    if ctrlBreakOnSuccess k s then
      (errors, if k ≠ 0 then ["Node caught up"] else [], true)
    else
      mainLoop errors rest

/-- The failed polls of a trace, in order. -/
def failuresOf : List PollOutcome → List String
  | [] => []
  | .failure e :: rest => e :: failuresOf rest
  | .success _ _ :: rest => failuresOf rest

/-- Length of the trailing run of consecutive failures of a trace. -/
def consecFailRun (t : List PollOutcome) : Nat :=
  (t.reverse.takeWhile fun o =>
    match o with
    | .failure _ => true
    | .success _ _ => false).length

/-- Startup followed by the loop: main aborts via log.Fatal (modelled as
none) when the resolved address is empty, and runs the loop otherwise. -/
def mainRun (addrFlag : Option String) (t : List PollOutcome) :
    Option (Nat × List String × Bool) :=
  if startupFatal (resolveAddr addrFlag) then none else some (mainLoop 0 t)

/-! ## Concrete fixtures used by witnesses -/

/-- A known-checkpoint family whose first gauge reads 7. -/
def famKnown : MetricFamily := ⟨"highest_known_checkpoint", [⟨some 7⟩]⟩

/-- A synced-checkpoint family whose first gauge reads 9. -/
def famSynced : MetricFamily := ⟨"highest_synced_checkpoint", [⟨some 9⟩]⟩

/-- A parsed payload containing both target families. -/
def mapBoth : List (String × MetricFamily) :=
  [("highest_known_checkpoint", famKnown), ("highest_synced_checkpoint", famSynced)]

/-- A parsed payload containing only the known-checkpoint family. -/
def mapKnownOnly : List (String × MetricFamily) :=
  [("highest_known_checkpoint", famKnown)]

/-! ## Helper lemmas -/

theorem empty_name_ne_known : "" ≠ "highest_known_checkpoint" := by decide

theorem empty_name_ne_synced : "" ≠ "highest_synced_checkpoint" := by decide

theorem synced_name_ne_known :
    "highest_synced_checkpoint" ≠ "highest_known_checkpoint" := by decide

theorem errIndicator_length (n : Nat) : (errIndicator n).length = n := by
  simp [errIndicator, String.length]

theorem storePhase_nil_family (s : ConvergenceState) : storePhase s none = some s := by
  simp [storePhase, familyGetName, empty_name_ne_known, empty_name_ne_synced]

theorem storePhase_known (s : ConvergenceState) (v : ℚ) (rest : List Metric) :
    storePhase s (some ⟨"highest_known_checkpoint", ⟨some v⟩ :: rest⟩) =
      some { s with highest_known_checkpoint := v } := by
  simp [storePhase, familyGetName, firstMetric, Metric.getGaugeValue]

theorem storePhase_synced (s : ConvergenceState) (v : ℚ) (rest : List Metric) :
    storePhase s (some ⟨"highest_synced_checkpoint", ⟨some v⟩ :: rest⟩) =
      some { s with highest_synced_checkpoint := v } := by
  simp [storePhase, familyGetName, firstMetric, Metric.getGaugeValue,
    synced_name_ne_known]

/-! ## Claims -/

/-- Claim C1: on a successful poll the main loop breaks out (Converged)
iff highest_known_checkpoint is non-zero and known - synced <= 0 at the
check; on that break it exits at once and prints the final caught-up
message exactly once, and otherwise it stays in the loop. -/
theorem C1_converges_iff_gap_closed (k s : ℚ) (errs : Nat) (rest : List PollOutcome) :
    (ctrlBreakOnSuccess k s = true ↔ (k ≠ 0 ∧ k - s ≤ 0)) ∧
    (ctrlBreakOnSuccess k s = true →
      mainLoop errs (PollOutcome.success k s :: rest) = (errs, ["Node caught up"], true)) ∧
    (ctrlBreakOnSuccess k s = false →
      mainLoop errs (PollOutcome.success k s :: rest) = mainLoop errs rest) := by
  refine ⟨?_, ?_, ?_⟩
  · unfold ctrlBreakOnSuccess
    split_ifs with h1 h2 <;> simp_all
  · intro hb
    unfold ctrlBreakOnSuccess at hb
    by_cases h0 : k = 0
    · simp [h0] at hb
    · by_cases h2 : k - s ≤ 0
      · simp [mainLoop, ctrlBreakOnSuccess, h0, h2]
      · simp [h0, h2] at hb
  · intro hb
    simp [mainLoop, hb]

/-- Claim C1 witness: with knownValue 100 and syncedValue 100 the check
fires and the loop exits with a single caught-up message. -/
theorem C1_converges_iff_gap_closed_witness :
    ctrlBreakOnSuccess 100 100 = true ∧
    mainLoop 0 [PollOutcome.success 100 100] = (0, ["Node caught up"], true) := by
  have h := C1_converges_iff_gap_closed 100 100 0 []
  have hb : ctrlBreakOnSuccess 100 100 = true := h.1.mpr ⟨by norm_num, by norm_num⟩
  exact ⟨hb, h.2.1 hb⟩

/-- Claim C2 counterexample: after the decoder passes knownValue -5
through unchanged (syncedValue never seen, still 0), the controller
convergence check does fire, contradicting the claim that it never fires
in a partial state regardless of the magnitude of knownValue. -/
theorem C2_negative_known_fires_check :
    processSamples 1 initialState
      [some ⟨"highest_known_checkpoint", [⟨some (-5)⟩]⟩, none] =
      some (⟨-5, 0, 0⟩, []) ∧
    ctrlBreakOnSuccess (-5) 0 = true := by
  constructor
  · norm_num [processSamples, monitorStep, storePhase, renderPhase, familyGetName,
      firstMetric, Metric.getGaugeValue, initialState, empty_name_ne_known,
      empty_name_ne_synced]
  · norm_num [ctrlBreakOnSuccess]

/-- Claim C2 amended: in a state where only knownValue was ever set
(syncedValue still 0) the aggregator computes no gap and no rate and
leaves the state unchanged, and the decoder/store path passes any value,
negative included, through unchanged; the controller convergence check
does not fire when knownValue is positive, and fires exactly when
knownValue is negative. -/
theorem C2_partial_state_tolerance (ui : Int) (k d v : ℚ) (s : ConvergenceState) :
    renderPhase ui ⟨k, 0, d⟩ = (⟨k, 0, d⟩, none) ∧
    (ctrlBreakOnSuccess k 0 = true ↔ k < 0) ∧
    storePhase s (some ⟨"highest_known_checkpoint", [⟨some v⟩]⟩) =
      some { s with highest_known_checkpoint := v } := by
  refine ⟨?_, ?_, storePhase_known s v []⟩
  · simp [renderPhase]
  · unfold ctrlBreakOnSuccess
    rw [sub_zero]
    split_ifs with h1 h2
    · simp [lt_of_le_of_ne h2 h1]
    · simp only [Bool.false_eq_true, false_iff]
      intro hlt
      exact h2 hlt.le
    · push_neg at h1
      simp [h1]

/-- Claim C3: when exactly one of the two target families is present in
a successfully parsed payload, the decoder returns with no error and the
published Samples are exactly the one present family; the absent slot
(a nil pointer on the channel) is ignored by the aggregator store. -/
theorem C3_one_family_one_sample (m : List (String × MetricFamily)) (f : MetricFamily)
    (h : (mapLookup m "highest_known_checkpoint" = some f ∧
          mapLookup m "highest_synced_checkpoint" = none) ∨
         (mapLookup m "highest_known_checkpoint" = none ∧
          mapLookup m "highest_synced_checkpoint" = some f)) :
    (∃ sends, parseReader (Except.ok m) = Except.ok sends ∧ samplesOf sends = [f]) ∧
    (∀ s : ConvergenceState, storePhase s none = some s) := by
  refine ⟨⟨[mapLookup m "highest_known_checkpoint",
            mapLookup m "highest_synced_checkpoint"], rfl, ?_⟩,
          storePhase_nil_family⟩
  rcases h with ⟨h1, h2⟩ | ⟨h1, h2⟩ <;> rw [h1, h2] <;> simp [samplesOf]

/-- Claim C3 witness: a payload with only the known-checkpoint family
yields exactly that one Sample and no error. -/
theorem C3_one_family_one_sample_witness :
    (mapLookup mapKnownOnly "highest_known_checkpoint" = some famKnown ∧
     mapLookup mapKnownOnly "highest_synced_checkpoint" = none) ∧
    (∃ sends, parseReader (Except.ok mapKnownOnly) = Except.ok sends ∧
      samplesOf sends = [famKnown]) := by
  have hh : mapLookup mapKnownOnly "highest_known_checkpoint" = some famKnown ∧
      mapLookup mapKnownOnly "highest_synced_checkpoint" = none := by
    constructor <;> decide
  exact ⟨hh, (C3_one_family_one_sample mapKnownOnly famKnown (Or.inl hh)).1⟩

/-- Claim C4: when both target families are present and their first
metrics carry gauge readings, the decoder returns no error and publishes
exactly two Samples whose values are the first gauge reading of each
family. -/
theorem C4_two_samples_first_gauge (m : List (String × MetricFamily))
    (fk fs : MetricFamily) (vk vs : ℚ) (tk ts : List Metric)
    (hk : mapLookup m "highest_known_checkpoint" = some fk)
    (hs : mapLookup m "highest_synced_checkpoint" = some fs)
    (hkm : fk.metric = ⟨some vk⟩ :: tk)
    (hsm : fs.metric = ⟨some vs⟩ :: ts) :
    ∃ sends, parseReader (Except.ok m) = Except.ok sends ∧
      (samplesOf sends).length = 2 ∧
      (samplesOf sends).map sampleValue = [vk, vs] := by
  refine ⟨[mapLookup m "highest_known_checkpoint",
           mapLookup m "highest_synced_checkpoint"], rfl, ?_, ?_⟩ <;>
    rw [hk, hs] <;> simp [samplesOf, sampleValue, hkm, hsm, Metric.getGaugeValue]

/-- Claim C4 witness: a payload with both families, gauges 7 and 9,
yields exactly the two Samples with values 7 and 9. -/
theorem C4_two_samples_first_gauge_witness :
    (mapLookup mapBoth "highest_known_checkpoint" = some famKnown ∧
     mapLookup mapBoth "highest_synced_checkpoint" = some famSynced ∧
     famKnown.metric = [⟨some 7⟩] ∧ famSynced.metric = [⟨some 9⟩]) ∧
    (∃ sends, parseReader (Except.ok mapBoth) = Except.ok sends ∧
      (samplesOf sends).length = 2 ∧
      (samplesOf sends).map sampleValue = [7, 9]) := by
  refine ⟨⟨by decide, by decide, rfl, rfl⟩, ?_⟩
  exact C4_two_samples_first_gauge mapBoth famKnown famSynced 7 9 [] []
    (by decide) (by decide) rfl rfl

/-- Claim C5: on a syntactically invalid payload the decoder fails with
the wrapped parse error, nothing is published to the channel, and the
aggregator state is unchanged with no line rendered. -/
theorem C5_parse_error_publishes_nothing (e : String) (ui : Int) (s : ConvergenceState) :
    parseReader (Except.error e) = Except.error ("reading text format failed: " ++ e) ∧
    publishOf (parseReader (Except.error e)) = [] ∧
    processSamples ui s (publishOf (parseReader (Except.error e))) = some (s, []) :=
  ⟨rfl, rfl, rfl⟩

/-- Claim C6: with both values non-zero the aggregator sets last_delta
to the new gap and renders catching-up with magnitude
-int64(rate)/interval when the rate is negative, falling-behind with
int64(rate)/interval otherwise. -/
theorem C6_rate_direction (ui : Int) (k s d : ℚ) (hk : k ≠ 0) (hs : s ≠ 0) :
    (renderPhase ui ⟨k, s, d⟩).1 = ⟨k, s, k - s⟩ ∧
    (k - s - d < 0 →
      (renderPhase ui ⟨k, s, d⟩).2 =
        some ("Catching up, " ++ toString (ratTrunc (k - s)) ++
          " checkpoints behind (" ++
          ("catching up at " ++ toString (goDiv (-(ratTrunc (k - s - d))) ui) ++ "/s") ++
          ")")) ∧
    (0 ≤ k - s - d →
      (renderPhase ui ⟨k, s, d⟩).2 =
        some ("Catching up, " ++ toString (ratTrunc (k - s)) ++
          " checkpoints behind (" ++
          ("falling behind at " ++ toString (goDiv (ratTrunc (k - s - d)) ui) ++ "/s") ++
          ")")) := by
  refine ⟨?_, ?_, ?_⟩
  · simp [renderPhase, hk, hs]
  · intro hr
    simp [renderPhase, hk, hs, statusLine, rateString, hr]
  · intro hr
    simp [renderPhase, hk, hs, statusLine, rateString, not_lt.mpr hr]

/-- Claim C6 witness: successive gaps 50 then 30 at interval 1 render
catching up at 20/s; gaps 30 then 50 render falling behind at 20/s; in
both cases last_delta becomes the new gap. -/
theorem C6_rate_direction_witness :
    ((130 : ℚ) ≠ 0 ∧ (100 : ℚ) ≠ 0) ∧
    (renderPhase 1 ⟨130, 100, 50⟩).1 = ⟨130, 100, 30⟩ ∧
    (renderPhase 1 ⟨130, 100, 50⟩).2 =
      some "Catching up, 30 checkpoints behind (catching up at 20/s)" ∧
    (renderPhase 1 ⟨150, 100, 30⟩).2 =
      some "Catching up, 50 checkpoints behind (falling behind at 20/s)" := by
  have h1 := C6_rate_direction 1 130 100 50 (by norm_num) (by norm_num)
  have h2 := C6_rate_direction 1 150 100 30 (by norm_num) (by norm_num)
  refine ⟨⟨by norm_num, by norm_num⟩, ?_, ?_, ?_⟩
  · rw [h1.1]
    norm_num
  · rw [h1.2.1 (by norm_num)]
    norm_num [ratTrunc, goDiv]
    decide
  · rw [h2.2.2 (by norm_num)]
    norm_num [ratTrunc, goDiv]
    decide

/-- Claim C7 counterexample: the -addr flag has a non-empty default, so
an absent flag is not a fatal configuration error: startup proceeds into
the loop with the default address. -/
theorem C7_absent_flag_not_fatal :
    resolveAddr none = "http://localhost:9187/metrics" ∧
    startupFatal (resolveAddr none) = false ∧
    mainRun none [] = some (0, [], false) := by
  refine ⟨rfl, by decide, ?_⟩
  rw [mainRun, if_neg (by decide)]
  rfl

/-- Claim C7 amended: the polling target address defaults to
http://localhost:9187/metrics when the flag is absent; the only fatal
startup error, aborting before the loop starts, is an explicitly empty
address. -/
theorem C7_empty_addr_fatal (o : Option String) (t : List PollOutcome) :
    (mainRun o t = none ↔ o = some "") ∧
    resolveAddr none = validator_addr_default := by
  refine ⟨?_, rfl⟩
  cases o with
  | none =>
    rw [mainRun, if_neg (by decide)]
    simp
  | some a =>
    by_cases ha : a = ""
    · subst ha
      rw [mainRun, if_pos (by decide)]
      simp
    · rw [mainRun, if_neg (by simp [startupFatal, resolveAddr, ha])]
      simp [ha]

/-- Claim C8 counterexample: after failure, non-converging success,
failure, the second error line carries a two-dot indicator although the
consecutive-failure run at that point has length one — the counter was
not reset by the success. -/
theorem C8_indicator_not_consecutive :
    (mainLoop 0 [PollOutcome.failure "boom", PollOutcome.success 5 1,
        PollOutcome.failure "boom"]).2.1 =
      [errorLine "boom" 1, errorLine "boom" 2] ∧
    (errIndicator 2).length = 2 ∧
    consecFailRun [PollOutcome.failure "boom", PollOutcome.success 5 1,
        PollOutcome.failure "boom"] = 1 ∧
    (2 : Nat) ≠ 1 := by
  refine ⟨?_, by decide, by decide, by decide⟩
  norm_num [mainLoop, ctrlBreakOnSuccess]

/-- Claim C8 amended: each failed poll increments the failure counter
and displays an indicator with one marker per failure since process
start; three consecutive fetch failures with no prior polls produce
indicators of lengths 1, 2 and 3. -/
theorem C8_failure_escalation (e : String) (errors : Nat) (rest : List PollOutcome) :
    (mainLoop errors (PollOutcome.failure e :: rest)).1 =
      (mainLoop (errors + 1) rest).1 ∧
    (mainLoop errors (PollOutcome.failure e :: rest)).2.1.head? =
      some (errorLine e (errors + 1)) ∧
    (errIndicator (errors + 1)).length = errors + 1 ∧
    (mainLoop 0 [PollOutcome.failure e, PollOutcome.failure e,
        PollOutcome.failure e]).2.1 =
      [errorLine e 1, errorLine e 2, errorLine e 3] := by
  refine ⟨?_, ?_, errIndicator_length _, ?_⟩ <;> simp [mainLoop]

/-- Claim C9: within a single successful poll the decoder publishes the
known-checkpoint family to the channel before the synced-checkpoint
family, so when both are present the aggregator receives the Samples in
that order. -/
theorem C9_known_published_first (m : List (String × MetricFamily))
    (fk fs : MetricFamily)
    (hk : mapLookup m "highest_known_checkpoint" = some fk)
    (hs : mapLookup m "highest_synced_checkpoint" = some fs) :
    parseReader (Except.ok m) = Except.ok [some fk, some fs] ∧
    samplesOf [some fk, some fs] = [fk, fs] := by
  constructor
  · rw [parseReader, hk, hs]
  · simp [samplesOf]

/-- Claim C9 witness: with both families present the publish order is
known first, synced second. -/
theorem C9_known_published_first_witness :
    (mapLookup mapBoth "highest_known_checkpoint" = some famKnown ∧
     mapLookup mapBoth "highest_synced_checkpoint" = some famSynced) ∧
    parseReader (Except.ok mapBoth) = Except.ok [some famKnown, some famSynced] ∧
    samplesOf [some famKnown, some famSynced] = [famKnown, famSynced] := by
  refine ⟨⟨by decide, by decide⟩, ?_⟩
  exact C9_known_published_first mapBoth famKnown famSynced (by decide) (by decide)

/-- Claim C10: the failure counter is a process-lifetime total, never
reset by successful polls: over any trace whose successes do not
converge, the final counter is the starting counter plus the number of
failures, and the i-th error line shows the indicator for errors+i+1,
the total number of failures since start, not the consecutive run. -/
theorem C10_counter_is_lifetime_total (errors : Nat) (t : List PollOutcome)
    (h : ∀ k s, PollOutcome.success k s ∈ t → ctrlBreakOnSuccess k s = false) :
    (mainLoop errors t).1 = errors + (failuresOf t).length ∧
    (mainLoop errors t).2.1.length = (failuresOf t).length ∧
    ∀ i : Nat, ∀ hi : i < (failuresOf t).length,
      (mainLoop errors t).2.1[i]? =
        some (errorLine (failuresOf t)[i] (errors + i + 1)) := by
  induction t generalizing errors with
  | nil =>
    refine ⟨by simp [mainLoop, failuresOf], by simp [mainLoop, failuresOf], ?_⟩
    intro i hi
    simp [failuresOf] at hi
  | cons o rest ih =>
    cases o with
    | failure e =>
      have hrest : ∀ k s, PollOutcome.success k s ∈ rest →
          ctrlBreakOnSuccess k s = false :=
        fun k s hm => h k s (List.mem_cons_of_mem _ hm)
      obtain ⟨ih1, ih2, ih3⟩ := ih (errors + 1) hrest
      refine ⟨?_, ?_, ?_⟩
      · simp [mainLoop, failuresOf, ih1]
        omega
      · simp [mainLoop, failuresOf, ih2]
      · intro i hi
        cases i with
        | zero => simp [mainLoop, failuresOf]
        | succ j =>
          have hj : j < (failuresOf rest).length := by
            simp [failuresOf] at hi
            omega
          have harith : errors + (j + 1) + 1 = errors + 1 + j + 1 := by omega
          simp [mainLoop, failuresOf, harith, ih3 j hj]
    | success k s =>
      have hb := h k s (List.mem_cons_self _ _)
      have hrest : ∀ k2 s2, PollOutcome.success k2 s2 ∈ rest →
          ctrlBreakOnSuccess k2 s2 = false :=
        fun k2 s2 hm => h k2 s2 (List.mem_cons_of_mem _ hm)
      simpa [mainLoop, hb, failuresOf] using ih errors hrest

/-- Claim C10 witness: over failure, non-converging success, failure,
the counter ends at 2 and the two error lines show one and two markers,
the totals since process start. -/
theorem C10_counter_is_lifetime_total_witness :
    (∀ k s, PollOutcome.success k s ∈
        ([PollOutcome.failure "a", PollOutcome.success 5 1,
          PollOutcome.failure "b"] : List PollOutcome) →
      ctrlBreakOnSuccess k s = false) ∧
    (mainLoop 0 [PollOutcome.failure "a", PollOutcome.success 5 1,
        PollOutcome.failure "b"]).1 = 2 ∧
    (mainLoop 0 [PollOutcome.failure "a", PollOutcome.success 5 1,
        PollOutcome.failure "b"]).2.1.length = 2 := by
  have hns : ∀ k s, PollOutcome.success k s ∈
      ([PollOutcome.failure "a", PollOutcome.success 5 1,
        PollOutcome.failure "b"] : List PollOutcome) →
      ctrlBreakOnSuccess k s = false := by
    intro k s hm
    simp at hm
    obtain ⟨hk, hs⟩ := hm
    subst hk
    subst hs
    norm_num [ctrlBreakOnSuccess]
  have h := C10_counter_is_lifetime_total 0
    [PollOutcome.failure "a", PollOutcome.success 5 1, PollOutcome.failure "b"] hns
  refine ⟨hns, ?_, ?_⟩
  · rw [h.1]
    norm_num [failuresOf]
  · rw [h.2.1]
    norm_num [failuresOf]

end SuiCatchup
